import Mathlib

/-!
Verification of the kiosk CLI (`src/dapps/kiosk-cli/index.js`): a shallow
embedding of the command handlers that resolve on-chain kiosk state and
assemble transaction blocks, together with theorems settling the spec's
claims about them.

The ledger is modelled as a `Provider` structure of total query functions
(`Option`/`List` results model missing objects and query errors), and every
command handler is embedded as a function returning the ordered trace of
ledger calls it issued together with its outcome (an error, or the list of
operations of the transaction it submitted).
-/

namespace KioskCli

/-- Object ids and addresses are hex strings on the wire. -/
abbrev ObjectId := String

abbrev Address := String

abbrev TypeName := String

/-- A hex digit as accepted by the sui.js `isHex` check. -/
def isHexDigit (c : Char) : Bool :=
  c.isDigit || ('a' ≤ c && c ≤ 'f') || ('A' ≤ c && c ≤ 'F')

/-- Strips the optional `0x` / `0X` prefix accepted by the sui.js `isHex`
regular expression. -/
def hexPart : List Char → List Char
  | '0' :: 'x' :: rest => rest
  | '0' :: 'X' :: rest => rest
  | cs => cs

/-- Embeds sui.js `isValidSuiAddress`: optional `0x` prefix, hex digits only,
and a byte length (`ceil(len / 2)`) of exactly 32. -/
def isValidSuiAddress (s : String) : Bool :=
  let hex := hexPart s.data
  hex.length > 0 && hex.all isHexDigit && (hex.length + 1) / 2 == 32

/-- Embeds sui.js `isValidSuiObjectId`, which is the same check as for
addresses. -/
def isValidSuiObjectId (s : String) : Bool :=
  isValidSuiAddress s

/-- Owner record of a ledger object, as reported with `showOwner`. The JS code
distinguishes the variants by key presence (`'AddressOwner' in owner`,
`'ObjectOwner' in owner`). -/
inductive Owner
  | addressOwner (addr : Address)
  | objectOwner (id : ObjectId)
  | shared
  | immutable
deriving DecidableEq, Repr

/-- Whether the owner record is object-owned (`'ObjectOwner' in owner`). -/
def Owner.isObjectOwner : Owner → Bool
  | .objectOwner _ => true
  | _ => false

/-- Snapshot of an object returned by `provider.getObject` with
`showType`/`showOwner`. -/
structure ObjectData where
  objectId : ObjectId
  type : TypeName
  owner : Owner
deriving DecidableEq, Repr

/-- A `KioskOwnerCap` entry as returned by `getOwnedKiosks`. -/
structure KioskCap where
  objectId : ObjectId
  kioskId : ObjectId
deriving DecidableEq, Repr

/-- A transfer-policy rule tag. The royalty and kiosk-lock rules are the ones
the rule engine knows; anything else is unsupported. -/
inductive RuleType
  | royalty
  | kioskLock
  | unknown (name : String)
deriving DecidableEq, Repr, BEq

/-- A `TransferPolicy` object as returned by `queryTransferPolicy`. -/
structure TransferPolicy where
  id : ObjectId
  rules : List RuleType
deriving DecidableEq, Repr

/-- The ledger, as seen through the provider's query interface: objects by id,
listing dynamic fields by (kiosk, item), transfer policies by type, and
kiosk-owner caps by address.  `none` / `[]` model a missing object or an
errored fetch. -/
structure Provider where
  objects : ObjectId → Option ObjectData
  listingPrice : ObjectId → ObjectId → Option Nat
  transferPolicies : TypeName → List TransferPolicy
  ownedKiosks : Address → List KioskCap

/-- One operation appended to a `TransactionBlock`. -/
inductive Op
  | createKioskAndShare
  | transferObjects (dest : Address)
  | place (itemType : TypeName) (kioskId capId itemId : ObjectId)
  | lockInKiosk (itemType : TypeName) (kioskId capId policyId itemId : ObjectId)
  | takeFromKiosk (itemType : TypeName) (kioskId capId itemId : ObjectId)
  | listForSale (itemType : TypeName) (kioskId capId itemId : ObjectId) (amount : Nat)
  | delistItemOp (itemType : TypeName) (kioskId capId itemId : ObjectId)
  | withdrawProfits (kioskId capId : ObjectId)
  | purchaseFrom (itemType : TypeName) (kioskId itemId : ObjectId) (price : Nat)
  | payRoyaltyDebit
  | confirmRule
  | lockIntoOwnedKiosk (kioskId capId : ObjectId)
deriving DecidableEq, Repr

/-- A remote call issued against the ledger, in issue order. -/
inductive LedgerCall
  | getObject (id : ObjectId)
  | getOwnedKiosks (addr : Address)
  | queryTransferPolicy (t : TypeName)
  | getDynamicFieldObject (parentId itemId : ObjectId)
  | submitTx (ops : List Op)
deriving DecidableEq, Repr

/-- The errors the command handlers throw. -/
inductive Err
  | invalidTarget (t : String)
  | invalidKioskId (k : String)
  | invalidItemId (i : String)
  | invalidAddress (a : String)
  | itemNotFound (i : ObjectId)
  | notOwnedByObject (i : ObjectId)
  | dfKeyNotFound (i : ObjectId)
  | dfKeyNotObjectOwned (i : ObjectId)
  | notListed (i k : ObjectId)
  | kioskNotFound (k : ObjectId)
  | noPolicy (t : TypeName)
  | noKiosk
  | kioskExists (s : Address)
  | notOwnedBySender (i : ObjectId)
  | unsupportedRule (n : String)
deriving DecidableEq, Repr

instance {ε α : Type} [DecidableEq ε] [DecidableEq α] : DecidableEq (Except ε α) :=
  fun a b =>
    match a, b with
    | .error e, .error f =>
      if h : e = f then .isTrue (by rw [h]) else .isFalse (by simp [h])
    | .ok x, .ok y =>
      if h : x = y then .isTrue (by rw [h]) else .isFalse (by simp [h])
    | .error _, .ok _ => .isFalse (by simp)
    | .ok _, .error _ => .isFalse (by simp)

/-- Result of running one command: the ordered ledger calls it issued
(submission included), and either the thrown error or the operation list of
the submitted transaction. -/
structure CmdResult where
  calls : List LedgerCall
  outcome : Except Err (List Op)
deriving DecidableEq, Repr

/-- Whether a run submitted some transaction. -/
def CmdResult.submittedTx (r : CmdResult) : Bool :=
  r.calls.any fun c =>
    match c with
    | .submitTx _ => true
    | _ => false

/-- Embeds `findKioskCap` composed with the `.catch(() => null)` used at every
call site: an invalid address or an empty cap list yields `none`; otherwise
the FIRST returned cap (`kioskOwnerCaps[0]`).  The first component is the
trace of ledger calls issued. -/
def findKioskCapRun (p : Provider) (sender : Address) :
    List LedgerCall × Option KioskCap :=
  if isValidSuiAddress sender then
    ([LedgerCall.getOwnedKiosks sender], (p.ownedKiosks sender).head?)
  else
    ([], none)

/-- Embeds `newKiosk`: fails if a cap already exists, otherwise submits
`[createKioskAndShare, transferObjects(sender)]`. -/
def newKiosk (p : Provider) (sender : Address) : CmdResult :=
  let fk := findKioskCapRun p sender
  match fk.2 with
  | some _ => ⟨fk.1, .error (.kioskExists sender)⟩
  | none =>
    let ops := [Op.createKioskAndShare, Op.transferObjects sender]
    ⟨fk.1 ++ [.submitTx ops], .ok ops⟩

/-- Embeds `placeItem`: capability lookup first, then input validation, then
the item fetch and owner check, then a single `place` call. -/
def placeItem (p : Provider) (sender : Address) (itemId : String) : CmdResult :=
  let fk := findKioskCapRun p sender
  match fk.2 with
  | none => ⟨fk.1, .error .noKiosk⟩
  | some cap =>
    if isValidSuiObjectId itemId then
      let calls := fk.1 ++ [LedgerCall.getObject itemId]
      match p.objects itemId with
      | none => ⟨calls, .error (.itemNotFound itemId)⟩
      | some item =>
        match item.owner with
        | .addressOwner a =>
          if a = sender then
            let ops := [Op.place item.type cap.kioskId cap.objectId item.objectId]
            ⟨calls ++ [.submitTx ops], .ok ops⟩
          else
            ⟨calls, .error (.notOwnedBySender itemId)⟩
        | _ => ⟨calls, .error (.notOwnedBySender itemId)⟩
    else
      ⟨fk.1, .error (.invalidItemId itemId)⟩

/-- Embeds `lockItem`: like `placeItem` but additionally queries the transfer
policy for the item's type and fails with the no-policy error when none
exists. -/
def lockItem (p : Provider) (sender : Address) (itemId : String) : CmdResult :=
  let fk := findKioskCapRun p sender
  match fk.2 with
  | none => ⟨fk.1, .error .noKiosk⟩
  | some cap =>
    if isValidSuiObjectId itemId then
      let calls := fk.1 ++ [LedgerCall.getObject itemId]
      match p.objects itemId with
      | none => ⟨calls, .error (.itemNotFound itemId)⟩
      | some item =>
        match item.owner with
        | .addressOwner a =>
          if a = sender then
            let calls := calls ++ [LedgerCall.queryTransferPolicy item.type]
            match p.transferPolicies item.type with
            | [] => ⟨calls, .error (.noPolicy item.type)⟩
            | policy :: _ =>
              let ops := [Op.lockInKiosk item.type cap.kioskId cap.objectId policy.id
                item.objectId]
              ⟨calls ++ [.submitTx ops], .ok ops⟩
          else
            ⟨calls, .error (.notOwnedBySender itemId)⟩
        | _ => ⟨calls, .error (.notOwnedBySender itemId)⟩
    else
      ⟨fk.1, .error (.invalidItemId itemId)⟩

/-- Embeds `takeItem`: the capability lookup happens first, but the receiver
address and item id are validated before the missing-cap check. -/
def takeItem (p : Provider) (sender : Address) (itemId : String)
    (address : Option String) : CmdResult :=
  let fk := findKioskCapRun p sender
  let receiver := address.getD sender
  if isValidSuiAddress receiver then
    if isValidSuiObjectId itemId then
      match fk.2 with
      | none => ⟨fk.1, .error .noKiosk⟩
      | some cap =>
        let calls := fk.1 ++ [LedgerCall.getObject itemId]
        match p.objects itemId with
        | none => ⟨calls, .error (.itemNotFound itemId)⟩
        | some item =>
          let ops := [Op.takeFromKiosk item.type cap.kioskId cap.objectId itemId,
            Op.transferObjects receiver]
          ⟨calls ++ [.submitTx ops], .ok ops⟩
    else
      ⟨fk.1, .error (.invalidItemId itemId)⟩
  else
    ⟨fk.1, .error (.invalidAddress receiver)⟩

/-- Embeds `listItem`: capability lookup, missing-cap check, item id
validation, item fetch, then a single `list` call for the given amount. -/
def listItem (p : Provider) (sender : Address) (itemId : String)
    (amount : Nat) : CmdResult :=
  let fk := findKioskCapRun p sender
  match fk.2 with
  | none => ⟨fk.1, .error .noKiosk⟩
  | some cap =>
    if isValidSuiObjectId itemId then
      let calls := fk.1 ++ [LedgerCall.getObject itemId]
      match p.objects itemId with
      | none => ⟨calls, .error (.itemNotFound itemId)⟩
      | some item =>
        let ops := [Op.listForSale item.type cap.kioskId cap.objectId itemId amount]
        ⟨calls ++ [.submitTx ops], .ok ops⟩
    else
      ⟨fk.1, .error (.invalidItemId itemId)⟩

/-- Embeds `delistItem`: same shape as `listItem` with a `delist` call. -/
def delistItem (p : Provider) (sender : Address) (itemId : String) : CmdResult :=
  let fk := findKioskCapRun p sender
  match fk.2 with
  | none => ⟨fk.1, .error .noKiosk⟩
  | some cap =>
    if isValidSuiObjectId itemId then
      let calls := fk.1 ++ [LedgerCall.getObject itemId]
      match p.objects itemId with
      | none => ⟨calls, .error (.itemNotFound itemId)⟩
      | some item =>
        let ops := [Op.delistItemOp item.type cap.kioskId cap.objectId itemId]
        ⟨calls ++ [.submitTx ops], .ok ops⟩
    else
      ⟨fk.1, .error (.invalidItemId itemId)⟩

/-- Embeds `withdrawAll`: capability lookup, missing-cap check, then a
withdraw call followed by a transfer of the coin to the sender. -/
def withdrawAll (p : Provider) (sender : Address) : CmdResult :=
  let fk := findKioskCapRun p sender
  match fk.2 with
  | none => ⟨fk.1, .error .noKiosk⟩
  | some cap =>
    let ops := [Op.withdrawProfits cap.kioskId cap.objectId,
      Op.transferObjects sender]
    ⟨fk.1 ++ [.submitTx ops], .ok ops⟩

/-- Modelled from the spec: the per-rule resolving actions of the rule engine
inside `purchaseAndResolvePolicies` (`@mysten/kiosk` SDK code of this
repository, not under `src/`).  Section 4.3: the pay-royalty rule debits a
coin and adds a confirm-rule operation; the kiosk-lock rule mandates custody
(its lock-into-destination-kiosk operation is emitted by `resolveRules`);
an unrecognized rule is a hard `UnsupportedRule` failure, never a silent
skip. -/
def ruleInlineOps : RuleType → Except Err (List Op)
  | .royalty => .ok [Op.payRoyaltyDebit, Op.confirmRule]
  | .kioskLock => .ok []
  | .unknown n => .error (.unsupportedRule n)

/-- Modelled from the spec: iterate the policy's rules in the order the
policy stores them, collecting each rule's resolving operations, failing on
the first unsupported rule. -/
def collectRuleOps : List RuleType → Except Err (List Op)
  | [] => .ok []
  | r :: rs =>
    match ruleInlineOps r with
    | .error e => .error e
    | .ok ops =>
      match collectRuleOps rs with
      | .error e => .error e
      | .ok rest => .ok (ops ++ rest)

/-- Modelled from the spec: `purchaseAndResolvePolicies` (`@mysten/kiosk` SDK
code of this repository, not under `src/`).  Section 4.3: the purchase debit
comes first, then the rule-satisfying operations in rule order; `canTransfer`
starts true and is cleared by any custody-mandating (kiosk-lock) rule, never
re-set; when custody is mandated the plan's final operation is the lock into
the caller's own kiosk (sections 4.3 and 8: "its final operation is a
lock/placement"). -/
def resolveRules (itemType : TypeName) (price : Nat) (fromKiosk itemId : ObjectId)
    (rules : List RuleType) (ownedKiosk ownedCap : ObjectId) :
    Except Err (List Op × Bool) :=
  match collectRuleOps rules with
  | .error e => .error e
  | .ok inline =>
    let canTransfer := !(rules.contains RuleType.kioskLock)
    let ops := Op.purchaseFrom itemType fromKiosk itemId price :: inline
      ++ (if canTransfer then [] else [Op.lockIntoOwnedKiosk ownedKiosk ownedCap])
    .ok (ops, canTransfer)

/-- The `purchaseItem` handler after the kiosk id has been resolved: the
three concurrent fetches (kiosk object, transfer policies, listing dynamic
field), the listing / kiosk / policy checks in source order, the capability
lookup, rule resolution, and the destination branch on `canTransfer` and
`target`. -/
def purchasePhase2 (p : Provider) (sender : Address) (itemId : String)
    (target : Option String) (itemInfo : ObjectData) (calls0 : List LedgerCall)
    (kioskId : ObjectId) : CmdResult :=
  let calls := calls0 ++ [LedgerCall.getObject kioskId,
    LedgerCall.queryTransferPolicy itemInfo.type,
    LedgerCall.getDynamicFieldObject kioskId itemId]
  match p.listingPrice kioskId itemId with
  | none => ⟨calls, .error (.notListed itemId kioskId)⟩
  | some price =>
    match p.objects kioskId with
    | none => ⟨calls, .error (.kioskNotFound kioskId)⟩
    | some kioskObj =>
      match p.transferPolicies itemInfo.type with
      | [] => ⟨calls, .error (.noPolicy itemInfo.type)⟩
      | policy :: _ =>
        let fk := findKioskCapRun p sender
        let calls := calls ++ fk.1
        match fk.2 with
        | none => ⟨calls, .error .noKiosk⟩
        | some cap =>
          match resolveRules itemInfo.type price kioskObj.objectId itemInfo.objectId
              policy.rules cap.kioskId cap.objectId with
          | .error e => ⟨calls, .error e⟩
          | .ok (ops, canTransfer) =>
            if canTransfer then
              if target = some "kiosk" then
                let ops := ops ++ [Op.place itemInfo.type cap.kioskId cap.objectId
                  itemInfo.objectId]
                ⟨calls ++ [.submitTx ops], .ok ops⟩
              else
                let receiver := target.getD sender
                let ops := ops ++ [Op.transferObjects receiver]
                ⟨calls ++ [.submitTx ops], .ok ops⟩
            else
              ⟨calls ++ [.submitTx ops], .ok ops⟩

/-- Whether the supplied `--target` option fails validation: a target that is
neither the literal `"kiosk"` nor a valid address. -/
def targetInvalid (target : Option String) : Bool :=
  match target with
  | some t => t ≠ "kiosk" && !isValidSuiAddress t
  | none => false

/-- Whether the supplied `--kiosk` option fails validation. -/
def kioskOptInvalid (kioskOpt : Option String) : Bool :=
  match kioskOpt with
  | some k => !isValidSuiObjectId k
  | none => false

/-- Embeds `purchaseItem`: input validation (target, kiosk option, item id, in
source order, before any ledger call), the item fetch with its unconditional
object-owned check, the kiosk-id resolution (the supplied `--kiosk` id used
unchanged, otherwise the two-hop dynamic-field lookup), then
`purchasePhase2`. -/
def purchaseItem (p : Provider) (sender : Address) (itemId : String)
    (target : Option String) (kioskOpt : Option String) : CmdResult :=
  if targetInvalid target then
    ⟨[], .error (.invalidTarget (target.getD ""))⟩
  else if kioskOptInvalid kioskOpt then
    ⟨[], .error (.invalidKioskId (kioskOpt.getD ""))⟩
  else if isValidSuiObjectId itemId then
    let c1 := [LedgerCall.getObject itemId]
    match p.objects itemId with
    | none => ⟨c1, .error (.itemNotFound itemId)⟩
    | some itemInfo =>
      match itemInfo.owner with
      | .objectOwner ownerId =>
        match kioskOpt with
        | some k => purchasePhase2 p sender itemId target itemInfo c1 k
        | none =>
          let c2 := c1 ++ [LedgerCall.getObject ownerId]
          match p.objects ownerId with
          | none => ⟨c2, .error (.dfKeyNotFound itemId)⟩
          | some itemKey =>
            match itemKey.owner with
            | .objectOwner kid => purchasePhase2 p sender itemId target itemInfo c2 kid
            | _ => ⟨c2, .error (.dfKeyNotObjectOwned itemId)⟩
      | _ => ⟨c1, .error (.notOwnedByObject itemId)⟩
  else
    ⟨[], .error (.invalidItemId itemId)⟩

/-- A rule the modelled rule engine recognizes. -/
def ruleSupported : RuleType → Bool
  | .unknown _ => false
  | _ => true

/-- Destination operations: a direct transfer to an address or a placement
into a kiosk. -/
def Op.isDest : Op → Bool
  | .transferObjects _ => true
  | .place _ _ _ _ => true
  | _ => false

/-- The lock-into-the-caller's-kiosk operation emitted by the rule engine. -/
def Op.isOwnedLock : Op → Bool
  | .lockIntoOwnedKiosk _ _ => true
  | _ => false

lemma collectRuleOps_supported (rules : List RuleType)
    (h : ∀ r ∈ rules, ruleSupported r = true) :
    ∃ inline, collectRuleOps rules = .ok inline ∧
      ∀ op ∈ inline, op.isDest = false ∧ op.isOwnedLock = false := by
  induction rules with
  | nil => exact ⟨[], rfl, by simp⟩
  | cons r rs ih =>
    have hr := h r (by simp)
    have hrs : ∀ x ∈ rs, ruleSupported x = true := fun x hx => h x (by simp [hx])
    obtain ⟨inline, hi, hprop⟩ := ih hrs
    cases r with
    | royalty =>
      refine ⟨[Op.payRoyaltyDebit, Op.confirmRule] ++ inline, ?_, ?_⟩
      · simp [collectRuleOps, ruleInlineOps, hi]
      · intro op hop
        rcases List.mem_append.1 hop with h1 | h2
        · simp only [List.mem_cons, List.not_mem_nil, or_false] at h1
          rcases h1 with h1 | h1 <;> simp [h1, Op.isDest, Op.isOwnedLock]
        · exact hprop op h2
    | kioskLock =>
      exact ⟨inline, by simp [collectRuleOps, ruleInlineOps, hi], hprop⟩
    | unknown n => exact absurd hr (by simp [ruleSupported])

lemma resolveRules_of_lockRule (t : TypeName) (price : Nat) (fk i ok oc : ObjectId)
    (rules : List RuleType)
    (hsup : ∀ r ∈ rules, ruleSupported r = true)
    (hlock : rules.contains RuleType.kioskLock = true) :
    ∃ pre, resolveRules t price fk i rules ok oc =
        .ok (pre ++ [Op.lockIntoOwnedKiosk ok oc], false) ∧
      ∀ op ∈ pre ++ [Op.lockIntoOwnedKiosk ok oc], op.isDest = false := by
  obtain ⟨inline, hi, hprop⟩ := collectRuleOps_supported rules hsup
  refine ⟨Op.purchaseFrom t fk i price :: inline, ?_, ?_⟩
  · simp [resolveRules, hi, hlock]
  · intro op hop
    rcases List.mem_append.1 hop with h1 | h1
    · rcases List.mem_cons.1 h1 with h2 | h2
      · simp [h2, Op.isDest]
      · exact (hprop op h2).1
    · simp only [List.mem_singleton] at h1
      simp [h1, Op.isDest]

lemma resolveRules_of_noLockRule (t : TypeName) (price : Nat) (fk i ok oc : ObjectId)
    (rules : List RuleType)
    (hsup : ∀ r ∈ rules, ruleSupported r = true)
    (hlock : rules.contains RuleType.kioskLock = false) :
    ∃ rops, resolveRules t price fk i rules ok oc = .ok (rops, true) ∧
      ∀ op ∈ rops, op.isDest = false ∧ op.isOwnedLock = false := by
  obtain ⟨inline, hi, hprop⟩ := collectRuleOps_supported rules hsup
  refine ⟨Op.purchaseFrom t fk i price :: inline, ?_, ?_⟩
  · simp [resolveRules, hi, hlock]
  · intro op hop
    rcases List.mem_cons.1 hop with h2 | h2
    · simp [h2, Op.isDest, Op.isOwnedLock]
    · exact hprop op h2

/-! Concrete ledger snapshots used to exercise the handlers. -/

def addrA : Address := "0x00000000000000000000000000000000000000000000000000000000000000a1"

def addrB : Address := "0x00000000000000000000000000000000000000000000000000000000000000b2"

def oItem : ObjectId := "0x0000000000000000000000000000000000000000000000000000000000000101"

def oWrap : ObjectId := "0x0000000000000000000000000000000000000000000000000000000000000102"

def oKiosk : ObjectId := "0x0000000000000000000000000000000000000000000000000000000000000103"

def oOwnKiosk : ObjectId := "0x0000000000000000000000000000000000000000000000000000000000000104"

def oCap : ObjectId := "0x0000000000000000000000000000000000000000000000000000000000000105"

def oPol : ObjectId := "0x0000000000000000000000000000000000000000000000000000000000000106"

def oPol2 : ObjectId := "0x0000000000000000000000000000000000000000000000000000000000000107"

def oCap2 : ObjectId := "0x0000000000000000000000000000000000000000000000000000000000000108"

def oOwnKiosk2 : ObjectId := "0x0000000000000000000000000000000000000000000000000000000000000109"

def tyA : TypeName := "0x2::example::Asset"

/-- Objects for the happy path: `oItem` sits two hops inside `oKiosk` via the
dynamic-field wrapper `oWrap`. -/
def baseObjects : ObjectId → Option ObjectData := fun id =>
  if id = oItem then some ⟨oItem, tyA, .objectOwner oWrap⟩
  else if id = oWrap then some ⟨oWrap, tyA, .objectOwner oKiosk⟩
  else if id = oKiosk then some ⟨oKiosk, tyA, .shared⟩
  else none

/-- Happy-path ledger: `oItem` listed in `oKiosk` for 100, one royalty-only
policy, one owner cap for `addrA`. -/
def pRoyalty : Provider where
  objects := baseObjects
  listingPrice := fun k i => if k = oKiosk && i = oItem then some 100 else none
  transferPolicies := fun t => if t = tyA then [⟨oPol, [RuleType.royalty]⟩] else []
  ownedKiosks := fun a => if a = addrA then [⟨oCap, oOwnKiosk⟩] else []

/-- As `pRoyalty` but the policy carries a kiosk-lock rule. -/
def pLock : Provider :=
  { pRoyalty with
    transferPolicies := fun t =>
      if t = tyA then [⟨oPol, [RuleType.royalty, RuleType.kioskLock]⟩] else [] }

def oItem2 : ObjectId := "0x000000000000000000000000000000000000000000000000000000000000010a"

/-- As `pRoyalty` but no transfer policy exists for any type, and with a
second item `oItem2` address-owned by `addrA` (in the caller's inventory). -/
def pNoPolicy : Provider :=
  { pRoyalty with
    transferPolicies := fun _ => []
    objects := fun id =>
      if id = oItem2 then some ⟨oItem2, tyA, .addressOwner addrA⟩
      else baseObjects id }

/-- As `pRoyalty` but no listing dynamic field exists. -/
def pNotListed : Provider := { pRoyalty with listingPrice := fun _ _ => none }

/-- As `pRoyalty` but the caller holds no `KioskOwnerCap`. -/
def pNoCap : Provider := { pRoyalty with ownedKiosks := fun _ => [] }

/-- As `pRoyalty` but the item is address-owned by `addrA` (not in a
kiosk). -/
def pAddrOwned : Provider :=
  { pRoyalty with
    objects := fun id =>
      if id = oItem then some ⟨oItem, tyA, .addressOwner addrA⟩ else baseObjects id }

/-- As `pRoyalty` but with two transfer policies and two owner caps, to
exercise multiplicity. -/
def pMulti : Provider :=
  { pRoyalty with
    transferPolicies := fun t =>
      if t = tyA then [⟨oPol, [RuleType.royalty]⟩, ⟨oPol2, [RuleType.kioskLock]⟩] else []
    ownedKiosks := fun a =>
      if a = addrA then [⟨oCap, oOwnKiosk⟩, ⟨oCap2, oOwnKiosk2⟩] else [] }

/-- An empty ledger. -/
def pEmpty : Provider where
  objects := fun _ => none
  listingPrice := fun _ _ => none
  transferPolicies := fun _ => []
  ownedKiosks := fun _ => []

/-- How `purchaseItem` arrives at a kiosk id `K` for the item whose owner
record points at the wrapper `w`: either the `--kiosk` option supplies `K`
directly (no extra ledger call), or the option is absent and the wrapper is
fetched and found object-owned by `K`. -/
def kioskResolution (p : Provider) (kioskOpt : Option String) (w K : ObjectId)
    (extra : List LedgerCall) : Prop :=
  (kioskOpt = some K ∧ extra = []) ∨
  (kioskOpt = none ∧ extra = [LedgerCall.getObject w] ∧
    ∃ key, p.objects w = some key ∧ key.owner = .objectOwner K)

/-- The ledger calls issued by a purchase run that reaches the capability
lookup: the item fetch, the optional wrapper fetch, the three concurrent
resolution fetches, and the cap query. -/
def resolutionCalls (itemId : String) (extra : List LedgerCall) (K : ObjectId)
    (t : TypeName) (sender : Address) : List LedgerCall :=
  LedgerCall.getObject itemId :: extra ++
    [LedgerCall.getObject K, LedgerCall.queryTransferPolicy t,
     LedgerCall.getDynamicFieldObject K itemId, LedgerCall.getOwnedKiosks sender]

lemma purchaseItem_resolves (p : Provider) (sender : Address) (itemId : String)
    (target kioskOpt : Option String) (info : ObjectData) (w K : ObjectId)
    (extra : List LedgerCall)
    (hT : targetInvalid target = false)
    (hKo : kioskOptInvalid kioskOpt = false)
    (hI : isValidSuiObjectId itemId = true)
    (hInfo : p.objects itemId = some info)
    (hOwn : info.owner = .objectOwner w)
    (hRes : kioskResolution p kioskOpt w K extra) :
    purchaseItem p sender itemId target kioskOpt =
      purchasePhase2 p sender itemId target info
        (LedgerCall.getObject itemId :: extra) K := by
  rcases hRes with ⟨hk, he⟩ | ⟨hk, he, key, hkey, hko⟩ <;> subst hk <;> subst he <;>
    simp [purchaseItem, hT, hKo, hI, hInfo, hOwn, *]

lemma purchasePhase2_notListed (p : Provider) (sender : Address) (itemId : String)
    (target : Option String) (info : ObjectData) (calls0 : List LedgerCall)
    (K : ObjectId)
    (hPrice : p.listingPrice K itemId = none) :
    purchasePhase2 p sender itemId target info calls0 K =
      ⟨calls0 ++ [LedgerCall.getObject K, LedgerCall.queryTransferPolicy info.type,
        LedgerCall.getDynamicFieldObject K itemId],
       .error (.notListed itemId K)⟩ := by
  simp [purchasePhase2, hPrice]

lemma purchasePhase2_noPolicy (p : Provider) (sender : Address) (itemId : String)
    (target : Option String) (info : ObjectData) (calls0 : List LedgerCall)
    (K : ObjectId) (price : Nat) (kobj : ObjectData)
    (hPrice : p.listingPrice K itemId = some price)
    (hKobj : p.objects K = some kobj)
    (hPol : p.transferPolicies info.type = []) :
    purchasePhase2 p sender itemId target info calls0 K =
      ⟨calls0 ++ [LedgerCall.getObject K, LedgerCall.queryTransferPolicy info.type,
        LedgerCall.getDynamicFieldObject K itemId],
       .error (.noPolicy info.type)⟩ := by
  simp [purchasePhase2, hPrice, hKobj, hPol]

lemma purchasePhase2_noCap (p : Provider) (sender : Address) (itemId : String)
    (target : Option String) (info : ObjectData) (calls0 : List LedgerCall)
    (K : ObjectId) (price : Nat) (kobj : ObjectData) (policy : TransferPolicy)
    (rest : List TransferPolicy)
    (hPrice : p.listingPrice K itemId = some price)
    (hKobj : p.objects K = some kobj)
    (hPol : p.transferPolicies info.type = policy :: rest)
    (hS : isValidSuiAddress sender = true)
    (hCaps : p.ownedKiosks sender = []) :
    purchasePhase2 p sender itemId target info calls0 K =
      ⟨calls0 ++ [LedgerCall.getObject K, LedgerCall.queryTransferPolicy info.type,
        LedgerCall.getDynamicFieldObject K itemId, LedgerCall.getOwnedKiosks sender],
       .error .noKiosk⟩ := by
  simp [purchasePhase2, hPrice, hKobj, hPol, findKioskCapRun, hS, hCaps]

lemma purchasePhase2_locked (p : Provider) (sender : Address) (itemId : String)
    (target : Option String) (info : ObjectData) (calls0 : List LedgerCall)
    (K : ObjectId) (price : Nat) (kobj : ObjectData) (policy : TransferPolicy)
    (rest : List TransferPolicy) (cap : KioskCap) (caps : List KioskCap)
    (rops : List Op)
    (hPrice : p.listingPrice K itemId = some price)
    (hKobj : p.objects K = some kobj)
    (hPol : p.transferPolicies info.type = policy :: rest)
    (hS : isValidSuiAddress sender = true)
    (hCaps : p.ownedKiosks sender = cap :: caps)
    (hRR : resolveRules info.type price kobj.objectId info.objectId policy.rules
      cap.kioskId cap.objectId = .ok (rops, false)) :
    purchasePhase2 p sender itemId target info calls0 K =
      ⟨(calls0 ++ [LedgerCall.getObject K, LedgerCall.queryTransferPolicy info.type,
        LedgerCall.getDynamicFieldObject K itemId, LedgerCall.getOwnedKiosks sender])
        ++ [.submitTx rops],
       .ok rops⟩ := by
  simp [purchasePhase2, hPrice, hKobj, hPol, findKioskCapRun, hS, hCaps, hRR]

lemma purchasePhase2_placeDest (p : Provider) (sender : Address) (itemId : String)
    (info : ObjectData) (calls0 : List LedgerCall)
    (K : ObjectId) (price : Nat) (kobj : ObjectData) (policy : TransferPolicy)
    (rest : List TransferPolicy) (cap : KioskCap) (caps : List KioskCap)
    (rops : List Op)
    (hPrice : p.listingPrice K itemId = some price)
    (hKobj : p.objects K = some kobj)
    (hPol : p.transferPolicies info.type = policy :: rest)
    (hS : isValidSuiAddress sender = true)
    (hCaps : p.ownedKiosks sender = cap :: caps)
    (hRR : resolveRules info.type price kobj.objectId info.objectId policy.rules
      cap.kioskId cap.objectId = .ok (rops, true)) :
    purchasePhase2 p sender itemId (some "kiosk") info calls0 K =
      ⟨(calls0 ++ [LedgerCall.getObject K, LedgerCall.queryTransferPolicy info.type,
        LedgerCall.getDynamicFieldObject K itemId, LedgerCall.getOwnedKiosks sender])
        ++ [.submitTx (rops ++
          [Op.place info.type cap.kioskId cap.objectId info.objectId])],
       .ok (rops ++ [Op.place info.type cap.kioskId cap.objectId info.objectId])⟩ := by
  simp [purchasePhase2, hPrice, hKobj, hPol, findKioskCapRun, hS, hCaps, hRR]

lemma purchasePhase2_transferDest (p : Provider) (sender : Address)
    (itemId : String) (target : Option String) (info : ObjectData)
    (calls0 : List LedgerCall)
    (K : ObjectId) (price : Nat) (kobj : ObjectData) (policy : TransferPolicy)
    (rest : List TransferPolicy) (cap : KioskCap) (caps : List KioskCap)
    (rops : List Op)
    (hPrice : p.listingPrice K itemId = some price)
    (hKobj : p.objects K = some kobj)
    (hPol : p.transferPolicies info.type = policy :: rest)
    (hS : isValidSuiAddress sender = true)
    (hCaps : p.ownedKiosks sender = cap :: caps)
    (hRR : resolveRules info.type price kobj.objectId info.objectId policy.rules
      cap.kioskId cap.objectId = .ok (rops, true))
    (hTgt : target ≠ some "kiosk") :
    purchasePhase2 p sender itemId target info calls0 K =
      ⟨(calls0 ++ [LedgerCall.getObject K, LedgerCall.queryTransferPolicy info.type,
        LedgerCall.getDynamicFieldObject K itemId, LedgerCall.getOwnedKiosks sender])
        ++ [.submitTx (rops ++ [Op.transferObjects (target.getD sender)])],
       .ok (rops ++ [Op.transferObjects (target.getD sender)])⟩ := by
  simp [purchasePhase2, hPrice, hKobj, hPol, findKioskCapRun, hS, hCaps, hRR, hTgt]

/-- C10: the `new` command fails with the kiosk-exists error, building and
submitting nothing, whenever the caller already holds a `KioskOwnerCap`; when
the caller holds none, it submits exactly one kiosk-creation operation and
transfers the new capability to the caller, so each successful `new`
invocation leaves the caller holding at most one capability created through
this client. -/
theorem newKiosk_enforces_single_cap (p : Provider) (sender : Address)
    (hS : isValidSuiAddress sender = true) :
    (p.ownedKiosks sender ≠ [] →
      newKiosk p sender =
        ⟨[LedgerCall.getOwnedKiosks sender], .error (.kioskExists sender)⟩) ∧
    (p.ownedKiosks sender = [] →
      newKiosk p sender =
        ⟨[LedgerCall.getOwnedKiosks sender,
          .submitTx [Op.createKioskAndShare, Op.transferObjects sender]],
         .ok [Op.createKioskAndShare, Op.transferObjects sender]⟩) ∧
    (∀ ops, (newKiosk p sender).outcome = .ok ops →
      p.ownedKiosks sender = [] ∧
      ops = [Op.createKioskAndShare, Op.transferObjects sender]) := by
  refine ⟨?_, ?_, ?_⟩
  · intro hc
    obtain ⟨c, cs, h⟩ : ∃ c cs, p.ownedKiosks sender = c :: cs := by
      cases h : p.ownedKiosks sender with
      | nil => exact absurd h hc
      | cons c cs => exact ⟨c, cs, rfl⟩
    simp [newKiosk, findKioskCapRun, hS, h]
  · intro h
    simp [newKiosk, findKioskCapRun, hS, h]
  · intro ops hops
    cases h : p.ownedKiosks sender with
    | nil =>
      simp [newKiosk, findKioskCapRun, hS, h] at hops
      exact ⟨rfl, hops.symm⟩
    | cons c cs =>
      simp [newKiosk, findKioskCapRun, hS, h] at hops

/-- Witness for C10 at a concrete empty ledger. -/
theorem newKiosk_enforces_single_cap_witness :
    newKiosk pEmpty addrA =
      ⟨[LedgerCall.getOwnedKiosks addrA,
        .submitTx [Op.createKioskAndShare, Op.transferObjects addrA]],
       .ok [Op.createKioskAndShare, Op.transferObjects addrA]⟩ :=
  (newKiosk_enforces_single_cap pEmpty addrA (by decide)).2.1 rfl

/-- C4: when policy discovery returns an empty list both `purchase` and
`lock` fail with the no-policy error, with no transaction submitted (the
error is thrown before rule resolution and before the transaction block is
assembled). -/
theorem noPolicy_fails_before_build (p : Provider) (sender : Address)
    (itemId : String) (target kioskOpt : Option String) (info : ObjectData)
    (w K : ObjectId) (extra : List LedgerCall) (price : Nat) (kobj : ObjectData)
    (hT : targetInvalid target = false)
    (hKo : kioskOptInvalid kioskOpt = false)
    (hI : isValidSuiObjectId itemId = true)
    (hInfo : p.objects itemId = some info)
    (hOwn : info.owner = .objectOwner w)
    (hRes : kioskResolution p kioskOpt w K extra)
    (hPrice : p.listingPrice K itemId = some price)
    (hKobj : p.objects K = some kobj)
    (hPol : ∀ t, p.transferPolicies t = []) :
    (purchaseItem p sender itemId target kioskOpt =
      ⟨(LedgerCall.getObject itemId :: extra) ++
        [LedgerCall.getObject K, LedgerCall.queryTransferPolicy info.type,
         LedgerCall.getDynamicFieldObject K itemId],
       .error (.noPolicy info.type)⟩) ∧
    (purchaseItem p sender itemId target kioskOpt).submittedTx = false ∧
    (∀ sender2 itemId2 item cap caps,
      isValidSuiAddress sender2 = true →
      isValidSuiObjectId itemId2 = true →
      p.ownedKiosks sender2 = cap :: caps →
      p.objects itemId2 = some item →
      item.owner = .addressOwner sender2 →
      lockItem p sender2 itemId2 =
        ⟨[LedgerCall.getOwnedKiosks sender2, LedgerCall.getObject itemId2,
          LedgerCall.queryTransferPolicy item.type],
         .error (.noPolicy item.type)⟩ ∧
      (lockItem p sender2 itemId2).submittedTx = false) := by
  have hp : purchaseItem p sender itemId target kioskOpt =
      ⟨(LedgerCall.getObject itemId :: extra) ++
        [LedgerCall.getObject K, LedgerCall.queryTransferPolicy info.type,
         LedgerCall.getDynamicFieldObject K itemId],
       .error (.noPolicy info.type)⟩ := by
    rw [purchaseItem_resolves p sender itemId target kioskOpt info w K extra hT hKo
      hI hInfo hOwn hRes]
    rw [purchasePhase2_noPolicy p sender itemId target info _ K price kobj hPrice
      hKobj (hPol info.type)]
  refine ⟨hp, ?_, ?_⟩
  · rw [hp]
    rcases hRes with ⟨_, he⟩ | ⟨_, he, _⟩ <;> subst he <;>
      simp [CmdResult.submittedTx]
  · intro sender2 itemId2 item cap caps hS2 hI2 hCaps2 hItem2 hOwn2
    have hl : lockItem p sender2 itemId2 =
        ⟨[LedgerCall.getOwnedKiosks sender2, LedgerCall.getObject itemId2,
          LedgerCall.queryTransferPolicy item.type],
         .error (.noPolicy item.type)⟩ := by
      simp [lockItem, findKioskCapRun, hS2, hCaps2, hI2, hItem2, hOwn2,
        hPol item.type]
    exact ⟨hl, by rw [hl]; simp [CmdResult.submittedTx]⟩

/-- Witness for C4 at a concrete ledger with no transfer policy. -/
theorem noPolicy_fails_before_build_witness :
    purchaseItem pNoPolicy addrA oItem none none =
      ⟨[LedgerCall.getObject oItem, LedgerCall.getObject oWrap,
        LedgerCall.getObject oKiosk, LedgerCall.queryTransferPolicy tyA,
        LedgerCall.getDynamicFieldObject oKiosk oItem],
       .error (.noPolicy tyA)⟩ ∧
    lockItem pNoPolicy addrA oItem2 =
      ⟨[LedgerCall.getOwnedKiosks addrA, LedgerCall.getObject oItem2,
        LedgerCall.queryTransferPolicy tyA],
       .error (.noPolicy tyA)⟩ := by
  have h := noPolicy_fails_before_build pNoPolicy addrA oItem none none
    ⟨oItem, tyA, .objectOwner oWrap⟩ oWrap oKiosk [LedgerCall.getObject oWrap]
    100 ⟨oKiosk, tyA, .shared⟩ (by decide) (by decide) (by decide) (by decide)
    (by decide)
    (Or.inr ⟨rfl, rfl, ⟨oWrap, tyA, .objectOwner oKiosk⟩, by decide, rfl⟩)
    (by decide) (by decide) (fun t => rfl)
  refine ⟨h.1, ?_⟩
  have h2 := h.2.2 addrA oItem2 ⟨oItem2, tyA, .addressOwner addrA⟩
    ⟨oCap, oOwnKiosk⟩ [] (by decide) (by decide) (by decide) (by decide)
    (by decide)
  exact h2.1

/-- C5: a purchase against a listing dynamic field that does not exist in the
resolved kiosk fails with the not-listed error and submits no transaction. -/
theorem missingListing_fails (p : Provider) (sender : Address)
    (itemId : String) (target kioskOpt : Option String) (info : ObjectData)
    (w K : ObjectId) (extra : List LedgerCall)
    (hT : targetInvalid target = false)
    (hKo : kioskOptInvalid kioskOpt = false)
    (hI : isValidSuiObjectId itemId = true)
    (hInfo : p.objects itemId = some info)
    (hOwn : info.owner = .objectOwner w)
    (hRes : kioskResolution p kioskOpt w K extra)
    (hPrice : p.listingPrice K itemId = none) :
    purchaseItem p sender itemId target kioskOpt =
      ⟨(LedgerCall.getObject itemId :: extra) ++
        [LedgerCall.getObject K, LedgerCall.queryTransferPolicy info.type,
         LedgerCall.getDynamicFieldObject K itemId],
       .error (.notListed itemId K)⟩ ∧
    (purchaseItem p sender itemId target kioskOpt).submittedTx = false := by
  have hp : purchaseItem p sender itemId target kioskOpt =
      ⟨(LedgerCall.getObject itemId :: extra) ++
        [LedgerCall.getObject K, LedgerCall.queryTransferPolicy info.type,
         LedgerCall.getDynamicFieldObject K itemId],
       .error (.notListed itemId K)⟩ := by
    rw [purchaseItem_resolves p sender itemId target kioskOpt info w K extra hT hKo
      hI hInfo hOwn hRes]
    exact purchasePhase2_notListed p sender itemId target info _ K hPrice
  refine ⟨hp, ?_⟩
  rw [hp]
  rcases hRes with ⟨_, he⟩ | ⟨_, he, _⟩ <;> subst he <;>
    simp [CmdResult.submittedTx]

/-- Witness for C5 at a concrete ledger with no listing. -/
theorem missingListing_fails_witness :
    purchaseItem pNotListed addrA oItem none none =
      ⟨[LedgerCall.getObject oItem, LedgerCall.getObject oWrap,
        LedgerCall.getObject oKiosk, LedgerCall.queryTransferPolicy tyA,
        LedgerCall.getDynamicFieldObject oKiosk oItem],
       .error (.notListed oItem oKiosk)⟩ :=
  (missingListing_fails pNotListed addrA oItem none none
    ⟨oItem, tyA, .objectOwner oWrap⟩ oWrap oKiosk [LedgerCall.getObject oWrap]
    (by decide) (by decide) (by decide) (by decide) (by decide)
    (Or.inr ⟨rfl, rfl, ⟨oWrap, tyA, .objectOwner oKiosk⟩, by decide, rfl⟩)
    (by decide)).1

/-- C1: without an explicit kiosk id, the kiosk is resolved by the two-hop
lookup: an item whose owner record is not object-owned fails at once; for an
object-owned item the owner reference (the dynamic-field wrapper) is fetched,
its own owner record must again be object-owned, and that owner id becomes
the kiosk id used by the rest of the purchase; a missing wrapper or an
unexpected owner shape at either hop fails with the corresponding resolution
error naming the item, and never proceeds to a kiosk id or a submission. -/
theorem purchase_two_hop_lookup (p : Provider) (sender : Address)
    (itemId : String) (target : Option String)
    (hT : targetInvalid target = false)
    (hI : isValidSuiObjectId itemId = true) :
    (∀ info, p.objects itemId = some info → info.owner.isObjectOwner = false →
      purchaseItem p sender itemId target none =
        ⟨[LedgerCall.getObject itemId], .error (.notOwnedByObject itemId)⟩) ∧
    (∀ info w, p.objects itemId = some info → info.owner = .objectOwner w →
      p.objects w = none →
      purchaseItem p sender itemId target none =
        ⟨[LedgerCall.getObject itemId, LedgerCall.getObject w],
         .error (.dfKeyNotFound itemId)⟩) ∧
    (∀ info w key, p.objects itemId = some info → info.owner = .objectOwner w →
      p.objects w = some key → key.owner.isObjectOwner = false →
      purchaseItem p sender itemId target none =
        ⟨[LedgerCall.getObject itemId, LedgerCall.getObject w],
         .error (.dfKeyNotObjectOwned itemId)⟩) ∧
    (∀ info w key K, p.objects itemId = some info → info.owner = .objectOwner w →
      p.objects w = some key → key.owner = .objectOwner K →
      purchaseItem p sender itemId target none =
        purchasePhase2 p sender itemId target info
          [LedgerCall.getObject itemId, LedgerCall.getObject w] K) := by
  refine ⟨?_, ?_, ?_, ?_⟩
  · intro info hInfo hOwn
    cases h : info.owner with
    | objectOwner id => rw [h] at hOwn; simp [Owner.isObjectOwner] at hOwn
    | addressOwner a => simp [purchaseItem, hT, hI, kioskOptInvalid, hInfo, h]
    | shared => simp [purchaseItem, hT, hI, kioskOptInvalid, hInfo, h]
    | immutable => simp [purchaseItem, hT, hI, kioskOptInvalid, hInfo, h]
  · intro info w hInfo hOwn hw
    simp [purchaseItem, hT, hI, kioskOptInvalid, hInfo, hOwn, hw]
  · intro info w key hInfo hOwn hw hko
    cases h : key.owner with
    | objectOwner id => rw [h] at hko; simp [Owner.isObjectOwner] at hko
    | addressOwner a => simp [purchaseItem, hT, hI, kioskOptInvalid, hInfo, hOwn, hw, h]
    | shared => simp [purchaseItem, hT, hI, kioskOptInvalid, hInfo, hOwn, hw, h]
    | immutable => simp [purchaseItem, hT, hI, kioskOptInvalid, hInfo, hOwn, hw, h]
  · intro info w key K hInfo hOwn hw hko
    simp [purchaseItem, hT, hI, kioskOptInvalid, hInfo, hOwn, hw, hko]

/-- Witness for C1: an address-owned item fails the first hop on a concrete
ledger. -/
theorem purchase_two_hop_lookup_witness :
    purchaseItem pAddrOwned addrA oItem none none =
      ⟨[LedgerCall.getObject oItem], .error (.notOwnedByObject oItem)⟩ :=
  (purchase_two_hop_lookup pAddrOwned addrA oItem none rfl (by decide)).1
    ⟨oItem, tyA, .addressOwner addrA⟩ (by decide) (by decide)

/-- Counterexample to C6: a well-formed explicit kiosk id does not make the
item's owner record irrelevant — an address-owned item still fails resolution
on the item's owner shape, instead of the kiosk id being returned
unchanged. -/
theorem explicitKiosk_owner_check_cex :
    purchaseItem pAddrOwned addrA oItem none (some oKiosk) =
      ⟨[LedgerCall.getObject oItem], .error (.notOwnedByObject oItem)⟩ := by
  decide

/-- C6 (amended): with a well-formed explicit kiosk id, resolution uses that
id unchanged and skips the dynamic-field wrapper hop (the wrapper's owner
record never constrains the result), but the item's owner record is still
fetched and must be object-owned: an item whose owner record is not
object-owned fails even with an explicit kiosk id. -/
theorem explicitKiosk_skips_wrapper_hop (p : Provider) (sender : Address)
    (itemId : String) (target : Option String) (K : ObjectId)
    (hT : targetInvalid target = false)
    (hK : isValidSuiObjectId K = true)
    (hI : isValidSuiObjectId itemId = true) :
    (∀ info w, p.objects itemId = some info → info.owner = .objectOwner w →
      purchaseItem p sender itemId target (some K) =
        purchasePhase2 p sender itemId target info
          [LedgerCall.getObject itemId] K) ∧
    (∀ info, p.objects itemId = some info → info.owner.isObjectOwner = false →
      purchaseItem p sender itemId target (some K) =
        ⟨[LedgerCall.getObject itemId], .error (.notOwnedByObject itemId)⟩) := by
  constructor
  · intro info w hInfo hOwn
    simp [purchaseItem, hT, hI, kioskOptInvalid, hK, hInfo, hOwn]
  · intro info hInfo hOwn
    cases h : info.owner with
    | objectOwner id => rw [h] at hOwn; simp [Owner.isObjectOwner] at hOwn
    | addressOwner a => simp [purchaseItem, hT, hI, kioskOptInvalid, hK, hInfo, h]
    | shared => simp [purchaseItem, hT, hI, kioskOptInvalid, hK, hInfo, h]
    | immutable => simp [purchaseItem, hT, hI, kioskOptInvalid, hK, hInfo, h]

/-- Witness for C6 (amended): with the explicit kiosk id the wrapper object
is never fetched on a concrete ledger. -/
theorem explicitKiosk_skips_wrapper_hop_witness :
    purchaseItem pRoyalty addrA oItem none (some oKiosk) =
      purchasePhase2 pRoyalty addrA oItem none
        ⟨oItem, tyA, .objectOwner oWrap⟩ [LedgerCall.getObject oItem] oKiosk :=
  (explicitKiosk_skips_wrapper_hop pRoyalty addrA oItem none oKiosk rfl
    (by decide) (by decide)).1 ⟨oItem, tyA, .objectOwner oWrap⟩ oWrap
    (by decide) rfl

/-- C2: when rule resolution clears `canTransfer` (the selected policy
contains the kiosk-lock rule), the purchase submits the transaction
immediately: the submitted operations are exactly the rule-resolution
operations with nothing appended, they end with the
lock-into-the-caller's-kiosk operation, and they contain no direct transfer
and no place operation — the purchased item is never transferred to an
address. -/
theorem lockedPurchase_submits_immediately (p : Provider) (sender : Address)
    (itemId : String) (target kioskOpt : Option String) (info : ObjectData)
    (w K : ObjectId) (extra : List LedgerCall) (price : Nat) (kobj : ObjectData)
    (policy : TransferPolicy) (rest : List TransferPolicy) (cap : KioskCap)
    (caps : List KioskCap) (rops : List Op)
    (hT : targetInvalid target = false)
    (hKo : kioskOptInvalid kioskOpt = false)
    (hI : isValidSuiObjectId itemId = true)
    (hInfo : p.objects itemId = some info)
    (hOwn : info.owner = .objectOwner w)
    (hRes : kioskResolution p kioskOpt w K extra)
    (hPrice : p.listingPrice K itemId = some price)
    (hKobj : p.objects K = some kobj)
    (hPol : p.transferPolicies info.type = policy :: rest)
    (hS : isValidSuiAddress sender = true)
    (hCaps : p.ownedKiosks sender = cap :: caps)
    (hsup : ∀ r ∈ policy.rules, ruleSupported r = true)
    (hlock : policy.rules.contains RuleType.kioskLock = true)
    (hRR : resolveRules info.type price kobj.objectId info.objectId policy.rules
      cap.kioskId cap.objectId = .ok (rops, false)) :
    purchaseItem p sender itemId target kioskOpt =
      ⟨resolutionCalls itemId extra K info.type sender ++ [.submitTx rops],
       .ok rops⟩ ∧
    (∃ pre, rops = pre ++ [Op.lockIntoOwnedKiosk cap.kioskId cap.objectId]) ∧
    (∀ op ∈ rops, op.isDest = false) := by
  obtain ⟨pre, hRR2, hnod⟩ := resolveRules_of_lockRule info.type price kobj.objectId
    info.objectId cap.kioskId cap.objectId policy.rules hsup hlock
  rw [hRR] at hRR2
  injection hRR2 with h
  have hpre : rops = pre ++ [Op.lockIntoOwnedKiosk cap.kioskId cap.objectId] :=
    congrArg Prod.fst h
  refine ⟨?_, ⟨pre, hpre⟩, by rw [hpre]; exact hnod⟩
  rw [purchaseItem_resolves p sender itemId target kioskOpt info w K extra hT hKo
    hI hInfo hOwn hRes]
  rw [purchasePhase2_locked p sender itemId target info _ K price kobj policy rest
    cap caps rops hPrice hKobj hPol hS hCaps hRR]
  simp [resolutionCalls]

/-- Witness for C2 on a concrete ledger whose policy carries the kiosk-lock
rule. -/
theorem lockedPurchase_submits_immediately_witness :
    purchaseItem pLock addrA oItem none none =
      ⟨resolutionCalls oItem [LedgerCall.getObject oWrap] oKiosk tyA addrA ++
        [.submitTx [Op.purchaseFrom tyA oKiosk oItem 100, Op.payRoyaltyDebit,
          Op.confirmRule, Op.lockIntoOwnedKiosk oOwnKiosk oCap]],
       .ok [Op.purchaseFrom tyA oKiosk oItem 100, Op.payRoyaltyDebit,
          Op.confirmRule, Op.lockIntoOwnedKiosk oOwnKiosk oCap]⟩ :=
  (lockedPurchase_submits_immediately pLock addrA oItem none none
    ⟨oItem, tyA, .objectOwner oWrap⟩ oWrap oKiosk [LedgerCall.getObject oWrap]
    100 ⟨oKiosk, tyA, .shared⟩ ⟨oPol, [RuleType.royalty, RuleType.kioskLock]⟩ []
    ⟨oCap, oOwnKiosk⟩ []
    [Op.purchaseFrom tyA oKiosk oItem 100, Op.payRoyaltyDebit, Op.confirmRule,
      Op.lockIntoOwnedKiosk oOwnKiosk oCap]
    rfl rfl (by decide) (by decide) (by decide)
    (Or.inr ⟨rfl, rfl, ⟨oWrap, tyA, .objectOwner oKiosk⟩, by decide, rfl⟩)
    (by decide) (by decide) (by decide) (by decide) (by decide)
    (by intro r hr; fin_cases hr <;> decide) (by decide) (by decide)).1

/-- C3: when rule resolution leaves `canTransfer` set, exactly one final
destination operation is appended after the rule-resolution operations (which
themselves contain no destination operation): a place into the caller's own
kiosk when the target is `"kiosk"`, otherwise a transfer to the supplied
target address, defaulting to the caller's own address when the target is
omitted. -/
theorem transferablePurchase_destination (p : Provider) (sender : Address)
    (itemId : String) (target kioskOpt : Option String) (info : ObjectData)
    (w K : ObjectId) (extra : List LedgerCall) (price : Nat) (kobj : ObjectData)
    (policy : TransferPolicy) (rest : List TransferPolicy) (cap : KioskCap)
    (caps : List KioskCap) (rops : List Op)
    (hT : targetInvalid target = false)
    (hKo : kioskOptInvalid kioskOpt = false)
    (hI : isValidSuiObjectId itemId = true)
    (hInfo : p.objects itemId = some info)
    (hOwn : info.owner = .objectOwner w)
    (hRes : kioskResolution p kioskOpt w K extra)
    (hPrice : p.listingPrice K itemId = some price)
    (hKobj : p.objects K = some kobj)
    (hPol : p.transferPolicies info.type = policy :: rest)
    (hS : isValidSuiAddress sender = true)
    (hCaps : p.ownedKiosks sender = cap :: caps)
    (hsup : ∀ r ∈ policy.rules, ruleSupported r = true)
    (hRR : resolveRules info.type price kobj.objectId info.objectId policy.rules
      cap.kioskId cap.objectId = .ok (rops, true)) :
    (∀ op ∈ rops, op.isDest = false) ∧
    (target = some "kiosk" →
      purchaseItem p sender itemId target kioskOpt =
        ⟨resolutionCalls itemId extra K info.type sender ++
          [.submitTx (rops ++
            [Op.place info.type cap.kioskId cap.objectId info.objectId])],
         .ok (rops ++
            [Op.place info.type cap.kioskId cap.objectId info.objectId])⟩) ∧
    (∀ a, target = some a → a ≠ "kiosk" →
      purchaseItem p sender itemId target kioskOpt =
        ⟨resolutionCalls itemId extra K info.type sender ++
          [.submitTx (rops ++ [Op.transferObjects a])],
         .ok (rops ++ [Op.transferObjects a])⟩) ∧
    (target = none →
      purchaseItem p sender itemId target kioskOpt =
        ⟨resolutionCalls itemId extra K info.type sender ++
          [.submitTx (rops ++ [Op.transferObjects sender])],
         .ok (rops ++ [Op.transferObjects sender])⟩) := by
  have hnod : ∀ op ∈ rops, op.isDest = false := by
    by_cases hlk : policy.rules.contains RuleType.kioskLock
    · obtain ⟨pre, hRR2, _⟩ := resolveRules_of_lockRule info.type price
        kobj.objectId info.objectId cap.kioskId cap.objectId policy.rules hsup hlk
      rw [hRR] at hRR2
      injection hRR2 with h
      exact absurd (congrArg Prod.snd h) (by simp)
    · obtain ⟨rops2, hRR2, hnod2⟩ := resolveRules_of_noLockRule info.type price
        kobj.objectId info.objectId cap.kioskId cap.objectId policy.rules hsup
        (by simpa using hlk)
      rw [hRR] at hRR2
      injection hRR2 with h
      have : rops = rops2 := congrArg Prod.fst h
      rw [this]
      exact fun op hop => (hnod2 op hop).1
  refine ⟨hnod, ?_, ?_, ?_⟩
  · intro htgt
    subst htgt
    rw [purchaseItem_resolves p sender itemId (some "kiosk") kioskOpt info w K
      extra hT hKo hI hInfo hOwn hRes]
    rw [purchasePhase2_placeDest p sender itemId info _ K price kobj policy rest
      cap caps rops hPrice hKobj hPol hS hCaps hRR]
    simp [resolutionCalls]
  · intro a htgt hne
    subst htgt
    rw [purchaseItem_resolves p sender itemId (some a) kioskOpt info w K extra hT
      hKo hI hInfo hOwn hRes]
    rw [purchasePhase2_transferDest p sender itemId (some a) info _ K price kobj
      policy rest cap caps rops hPrice hKobj hPol hS hCaps hRR (by simp [hne])]
    simp [resolutionCalls]
  · intro htgt
    subst htgt
    rw [purchaseItem_resolves p sender itemId none kioskOpt info w K extra hT hKo
      hI hInfo hOwn hRes]
    rw [purchasePhase2_transferDest p sender itemId none info _ K price kobj
      policy rest cap caps rops hPrice hKobj hPol hS hCaps hRR (by simp)]
    simp [resolutionCalls]

/-- Witness for C3: with target `"kiosk"` the final operation places the item
into the caller's own kiosk on a concrete ledger. -/
theorem transferablePurchase_destination_witness :
    purchaseItem pRoyalty addrA oItem (some "kiosk") none =
      ⟨resolutionCalls oItem [LedgerCall.getObject oWrap] oKiosk tyA addrA ++
        [.submitTx [Op.purchaseFrom tyA oKiosk oItem 100, Op.payRoyaltyDebit,
          Op.confirmRule, Op.place tyA oOwnKiosk oCap oItem]],
       .ok [Op.purchaseFrom tyA oKiosk oItem 100, Op.payRoyaltyDebit,
          Op.confirmRule, Op.place tyA oOwnKiosk oCap oItem]⟩ :=
  ((transferablePurchase_destination pRoyalty addrA oItem (some "kiosk") none
    ⟨oItem, tyA, .objectOwner oWrap⟩ oWrap oKiosk [LedgerCall.getObject oWrap]
    100 ⟨oKiosk, tyA, .shared⟩ ⟨oPol, [RuleType.royalty]⟩ []
    ⟨oCap, oOwnKiosk⟩ []
    [Op.purchaseFrom tyA oKiosk oItem 100, Op.payRoyaltyDebit, Op.confirmRule]
    (by decide) rfl (by decide) (by decide) (by decide)
    (Or.inr ⟨rfl, rfl, ⟨oWrap, tyA, .objectOwner oKiosk⟩, by decide, rfl⟩)
    (by decide) (by decide) (by decide) (by decide) (by decide)
    (by intro r hr; fin_cases hr; decide) (by decide)).2.1 rfl)

/-- C9: when the ledger reports several `KioskOwnerCap`s for the caller and
several `TransferPolicy` objects for the asset type, the first element of
each query result is the one selected and used — the purchase run is fully
determined by the first cap and the first policy — and multiplicity is not
an error: the purchase still submits successfully. -/
theorem first_cap_and_policy_selected (p : Provider) (sender : Address)
    (itemId : String) (kioskOpt : Option String) (info : ObjectData)
    (w K : ObjectId) (extra : List LedgerCall) (price : Nat) (kobj : ObjectData)
    (q1 q2 : TransferPolicy) (qs : List TransferPolicy) (c1 c2 : KioskCap)
    (cs : List KioskCap) (rops : List Op) (ct : Bool)
    (hKo : kioskOptInvalid kioskOpt = false)
    (hI : isValidSuiObjectId itemId = true)
    (hInfo : p.objects itemId = some info)
    (hOwn : info.owner = .objectOwner w)
    (hRes : kioskResolution p kioskOpt w K extra)
    (hPrice : p.listingPrice K itemId = some price)
    (hKobj : p.objects K = some kobj)
    (hPol : p.transferPolicies info.type = q1 :: q2 :: qs)
    (hS : isValidSuiAddress sender = true)
    (hCaps : p.ownedKiosks sender = c1 :: c2 :: cs)
    (hRR : resolveRules info.type price kobj.objectId info.objectId q1.rules
      c1.kioskId c1.objectId = .ok (rops, ct)) :
    findKioskCapRun p sender = ([LedgerCall.getOwnedKiosks sender], some c1) ∧
    purchaseItem p sender itemId none kioskOpt =
      ⟨resolutionCalls itemId extra K info.type sender ++
        [.submitTx (if ct then rops ++ [Op.transferObjects sender] else rops)],
       .ok (if ct then rops ++ [Op.transferObjects sender] else rops)⟩ := by
  refine ⟨by simp [findKioskCapRun, hS, hCaps], ?_⟩
  rw [purchaseItem_resolves p sender itemId none kioskOpt info w K extra rfl hKo
    hI hInfo hOwn hRes]
  cases ct with
  | true =>
    rw [purchasePhase2_transferDest p sender itemId none info _ K price kobj q1
      (q2 :: qs) c1 (c2 :: cs) rops hPrice hKobj hPol hS hCaps hRR (by simp)]
    simp [resolutionCalls]
  | false =>
    rw [purchasePhase2_locked p sender itemId none info _ K price kobj q1
      (q2 :: qs) c1 (c2 :: cs) rops hPrice hKobj hPol hS hCaps hRR]
    simp [resolutionCalls]

/-- Witness for C9 on a concrete ledger with two caps and two policies. -/
theorem first_cap_and_policy_selected_witness :
    findKioskCapRun pMulti addrA =
      ([LedgerCall.getOwnedKiosks addrA], some ⟨oCap, oOwnKiosk⟩) ∧
    purchaseItem pMulti addrA oItem none none =
      ⟨resolutionCalls oItem [LedgerCall.getObject oWrap] oKiosk tyA addrA ++
        [.submitTx [Op.purchaseFrom tyA oKiosk oItem 100, Op.payRoyaltyDebit,
          Op.confirmRule, Op.transferObjects addrA]],
       .ok [Op.purchaseFrom tyA oKiosk oItem 100, Op.payRoyaltyDebit,
          Op.confirmRule, Op.transferObjects addrA]⟩ := by
  have h := first_cap_and_policy_selected pMulti addrA oItem none
    ⟨oItem, tyA, .objectOwner oWrap⟩ oWrap oKiosk [LedgerCall.getObject oWrap]
    100 ⟨oKiosk, tyA, .shared⟩ ⟨oPol, [RuleType.royalty]⟩
    ⟨oPol2, [RuleType.kioskLock]⟩ [] ⟨oCap, oOwnKiosk⟩ ⟨oCap2, oOwnKiosk2⟩ []
    [Op.purchaseFrom tyA oKiosk oItem 100, Op.payRoyaltyDebit, Op.confirmRule]
    true rfl (by decide) (by decide) (by decide)
    (Or.inr ⟨rfl, rfl, ⟨oWrap, tyA, .objectOwner oKiosk⟩, by decide, rfl⟩)
    (by decide) (by decide) (by decide) (by decide) (by decide) (by decide)
  exact ⟨h.1, h.2⟩

/-- Counterexample to C7: a purchase by a caller holding no `KioskOwnerCap`
fails with the no-kiosk error only AFTER five other ledger round-trips (item,
wrapper, kiosk, policy and listing fetches), not as the first check. -/
theorem capless_purchase_checks_late_cex :
    purchaseItem pNoCap addrA oItem none none =
      ⟨[LedgerCall.getObject oItem, LedgerCall.getObject oWrap,
        LedgerCall.getObject oKiosk, LedgerCall.queryTransferPolicy tyA,
        LedgerCall.getDynamicFieldObject oKiosk oItem,
        LedgerCall.getOwnedKiosks addrA],
       .error .noKiosk⟩ := by
  decide

/-- C7 (amended): for `place`, `lock`, `list`, `delist` and `withdraw` a
caller holding no `KioskOwnerCap` fails with the no-kiosk error right after
the capability lookup, with no other ledger round-trip and no transaction
submitted; `take` behaves the same once its receiver and item id pass the
local input validation; for `purchase` the no-kiosk failure comes only after
item, wrapper, kiosk, policy and listing resolution, though still before any
operation is appended and before submission. -/
theorem capless_mutating_commands_fail (p : Provider) (sender : Address)
    (hS : isValidSuiAddress sender = true)
    (hCaps : p.ownedKiosks sender = []) :
    (∀ itemId, placeItem p sender itemId =
      ⟨[LedgerCall.getOwnedKiosks sender], .error .noKiosk⟩) ∧
    (∀ itemId, lockItem p sender itemId =
      ⟨[LedgerCall.getOwnedKiosks sender], .error .noKiosk⟩) ∧
    (∀ itemId amount, listItem p sender itemId amount =
      ⟨[LedgerCall.getOwnedKiosks sender], .error .noKiosk⟩) ∧
    (∀ itemId, delistItem p sender itemId =
      ⟨[LedgerCall.getOwnedKiosks sender], .error .noKiosk⟩) ∧
    (withdrawAll p sender =
      ⟨[LedgerCall.getOwnedKiosks sender], .error .noKiosk⟩) ∧
    (∀ itemId address, isValidSuiAddress (address.getD sender) = true →
      isValidSuiObjectId itemId = true →
      takeItem p sender itemId address =
        ⟨[LedgerCall.getOwnedKiosks sender], .error .noKiosk⟩) ∧
    (∀ itemId target kioskOpt info w K extra price kobj policy rest,
      targetInvalid target = false →
      kioskOptInvalid kioskOpt = false →
      isValidSuiObjectId itemId = true →
      p.objects itemId = some info →
      info.owner = .objectOwner w →
      kioskResolution p kioskOpt w K extra →
      p.listingPrice K itemId = some price →
      p.objects K = some kobj →
      p.transferPolicies info.type = policy :: rest →
      purchaseItem p sender itemId target kioskOpt =
        ⟨resolutionCalls itemId extra K info.type sender, .error .noKiosk⟩ ∧
      (purchaseItem p sender itemId target kioskOpt).submittedTx = false) := by
  refine ⟨?_, ?_, ?_, ?_, ?_, ?_, ?_⟩
  · intro itemId; simp [placeItem, findKioskCapRun, hS, hCaps]
  · intro itemId; simp [lockItem, findKioskCapRun, hS, hCaps]
  · intro itemId amount; simp [listItem, findKioskCapRun, hS, hCaps]
  · intro itemId; simp [delistItem, findKioskCapRun, hS, hCaps]
  · simp [withdrawAll, findKioskCapRun, hS, hCaps]
  · intro itemId address hr hi
    simp [takeItem, findKioskCapRun, hS, hCaps, hr, hi]
  · intro itemId target kioskOpt info w K extra price kobj policy rest hT hKo hI
      hInfo hOwn hRes hPrice hKobj hPol
    have hp : purchaseItem p sender itemId target kioskOpt =
        ⟨resolutionCalls itemId extra K info.type sender, .error .noKiosk⟩ := by
      rw [purchaseItem_resolves p sender itemId target kioskOpt info w K extra hT
        hKo hI hInfo hOwn hRes]
      rw [purchasePhase2_noCap p sender itemId target info _ K price kobj policy
        rest hPrice hKobj hPol hS hCaps]
      simp [resolutionCalls]
    refine ⟨hp, ?_⟩
    rw [hp]
    rcases hRes with ⟨_, he⟩ | ⟨_, he, _⟩ <;> subst he <;>
      simp [CmdResult.submittedTx, resolutionCalls]

/-- Witness for C7 (amended) on a concrete capless ledger. -/
theorem capless_mutating_commands_fail_witness :
    placeItem pNoCap addrA oItem =
      ⟨[LedgerCall.getOwnedKiosks addrA], .error .noKiosk⟩ ∧
    withdrawAll pNoCap addrA =
      ⟨[LedgerCall.getOwnedKiosks addrA], .error .noKiosk⟩ ∧
    (purchaseItem pNoCap addrA oItem none none).submittedTx = false := by
  have h := capless_mutating_commands_fail pNoCap addrA (by decide) rfl
  refine ⟨h.1 oItem, h.2.2.2.2.1, ?_⟩
  exact (h.2.2.2.2.2.2 oItem none none ⟨oItem, tyA, .objectOwner oWrap⟩ oWrap
    oKiosk [LedgerCall.getObject oWrap] 100 ⟨oKiosk, tyA, .shared⟩
    ⟨oPol, [RuleType.royalty]⟩ [] rfl rfl (by decide) (by decide) (by decide)
    (Or.inr ⟨rfl, rfl, ⟨oWrap, tyA, .objectOwner oKiosk⟩, by decide, rfl⟩)
    (by decide) (by decide) (by decide)).2

/-- Counterexample to C8: `place` invoked with a malformed item id fails with
the invalid-input error only AFTER the capability-lookup ledger call, not
before any ledger call. -/
theorem invalid_input_after_lookup_cex :
    placeItem pRoyalty addrA "bad" =
      ⟨[LedgerCall.getOwnedKiosks addrA], .error (.invalidItemId "bad")⟩ := by
  decide

/-- C8 (amended): `purchase` validates its target address, kiosk id and item
id before any ledger call; `place`, `lock`, `list` and `delist` validate the
item id after the capability lookup (and only when a capability exists) but
before any further ledger call and before any transaction is built or
submitted; `take` validates its receiver address and item id after the
capability lookup but before the missing-capability check and before any
further ledger call. -/
theorem invalid_input_checks (p : Provider) (sender : Address)
    (hS : isValidSuiAddress sender = true) :
    (∀ itemId target kioskOpt t, target = some t → t ≠ "kiosk" →
      isValidSuiAddress t = false →
      purchaseItem p sender itemId target kioskOpt =
        ⟨[], .error (.invalidTarget t)⟩) ∧
    (∀ itemId target kioskOpt k, targetInvalid target = false →
      kioskOpt = some k → isValidSuiObjectId k = false →
      purchaseItem p sender itemId target kioskOpt =
        ⟨[], .error (.invalidKioskId k)⟩) ∧
    (∀ itemId target kioskOpt, targetInvalid target = false →
      kioskOptInvalid kioskOpt = false → isValidSuiObjectId itemId = false →
      purchaseItem p sender itemId target kioskOpt =
        ⟨[], .error (.invalidItemId itemId)⟩) ∧
    (∀ itemId cap caps, p.ownedKiosks sender = cap :: caps →
      isValidSuiObjectId itemId = false →
      placeItem p sender itemId =
        ⟨[LedgerCall.getOwnedKiosks sender], .error (.invalidItemId itemId)⟩ ∧
      lockItem p sender itemId =
        ⟨[LedgerCall.getOwnedKiosks sender], .error (.invalidItemId itemId)⟩ ∧
      (∀ amount, listItem p sender itemId amount =
        ⟨[LedgerCall.getOwnedKiosks sender], .error (.invalidItemId itemId)⟩) ∧
      delistItem p sender itemId =
        ⟨[LedgerCall.getOwnedKiosks sender], .error (.invalidItemId itemId)⟩) ∧
    (∀ itemId r, isValidSuiAddress r = false →
      takeItem p sender itemId (some r) =
        ⟨[LedgerCall.getOwnedKiosks sender], .error (.invalidAddress r)⟩) ∧
    (∀ itemId address, isValidSuiAddress (address.getD sender) = true →
      isValidSuiObjectId itemId = false →
      takeItem p sender itemId address =
        ⟨[LedgerCall.getOwnedKiosks sender], .error (.invalidItemId itemId)⟩) := by
  refine ⟨?_, ?_, ?_, ?_, ?_, ?_⟩
  · intro itemId target kioskOpt t htgt hne hval
    subst htgt
    simp [purchaseItem, targetInvalid, hne, hval]
  · intro itemId target kioskOpt k hT hk hval
    subst hk
    simp [purchaseItem, hT, kioskOptInvalid, hval]
  · intro itemId target kioskOpt hT hKo hval
    simp [purchaseItem, hT, hKo, hval]
  · intro itemId cap caps hCaps hval
    refine ⟨?_, ?_, ?_, ?_⟩
    · simp [placeItem, findKioskCapRun, hS, hCaps, hval]
    · simp [lockItem, findKioskCapRun, hS, hCaps, hval]
    · intro amount
      simp [listItem, findKioskCapRun, hS, hCaps, hval]
    · simp [delistItem, findKioskCapRun, hS, hCaps, hval]
  · intro itemId r hval
    simp [takeItem, findKioskCapRun, hS, hval]
  · intro itemId address hr hval
    simp [takeItem, findKioskCapRun, hS, hr, hval]

/-- Witness for C8 (amended): purchase rejects a malformed item id with no
ledger call on a concrete ledger. -/
theorem invalid_input_checks_witness :
    purchaseItem pRoyalty addrA "bad" none none =
      ⟨[], .error (.invalidItemId "bad")⟩ ∧
    takeItem pRoyalty addrA oItem (some "worse") =
      ⟨[LedgerCall.getOwnedKiosks addrA], .error (.invalidAddress "worse")⟩ := by
  have h := invalid_input_checks pRoyalty addrA (by decide)
  exact ⟨h.2.2.1 "bad" none none rfl rfl (by decide),
    h.2.2.2.2.1 oItem "worse" (by decide)⟩

end KioskCli

